import Mathlib

/-!
Verification of the av1clip pipeline orchestration core
(`src/av1clip/av1clip.py`) against its natural-language specification.

The Python source is shallowly embedded below:
pure helpers become Lean functions, the straight-line effectful parts of
`main` become explicit event traces, Python `float` arithmetic in the
geometry resolver is modelled exactly over `ℚ`, and the MD5 digest used
for the cache fingerprint is implemented in full (RFC 1321) over byte
lists so that digests of concrete requests can be evaluated.
-/

set_option maxRecDepth 4000

namespace AV1Clip

/-! ### MD5 (RFC 1321), operating on lists of bytes (`ℕ < 256`) -/

/-- `2 ^ 32`, the modulus for MD5 word arithmetic. -/
def M32 : ℕ := 4294967296

/-- Bitwise complement on 32-bit words represented as `ℕ`. -/
def not32 (x : ℕ) : ℕ := x ^^^ 4294967295

/-- Rotate a 32-bit word left by `s` bits. -/
def rotl32 (x s : ℕ) : ℕ := ((x <<< s) % M32) ||| (x >>> (32 - s))

/-- The 64 MD5 sine-derived constants `T[i]` of RFC 1321. -/
def md5K : List ℕ :=
  [0xd76aa478, 0xe8c7b756, 0x242070db, 0xc1bdceee,
   0xf57c0faf, 0x4787c62a, 0xa8304613, 0xfd469501,
   0x698098d8, 0x8b44f7af, 0xffff5bb1, 0x895cd7be,
   0x6b901122, 0xfd987193, 0xa679438e, 0x49b40821,
   0xf61e2562, 0xc040b340, 0x265e5a51, 0xe9b6c7aa,
   0xd62f105d, 0x02441453, 0xd8a1e681, 0xe7d3fbc8,
   0x21e1cde6, 0xc33707d6, 0xf4d50d87, 0x455a14ed,
   0xa9e3e905, 0xfcefa3f8, 0x676f02d9, 0x8d2a4c8a,
   0xfffa3942, 0x8771f681, 0x6d9d6122, 0xfde5380c,
   0xa4beea44, 0x4bdecfa9, 0xf6bb4b60, 0xbebfbc70,
   0x289b7ec6, 0xeaa127fa, 0xd4ef3085, 0x04881d05,
   0xd9d4d039, 0xe6db99e5, 0x1fa27cf8, 0xc4ac5665,
   0xf4292244, 0x432aff97, 0xab9423a7, 0xfc93a039,
   0x655b59c3, 0x8f0ccc92, 0xffeff47d, 0x85845dd1,
   0x6fa87e4f, 0xfe2ce6e0, 0xa3014314, 0x4e0811a1,
   0xf7537e82, 0xbd3af235, 0x2ad7d2bb, 0xeb86d391]

/-- The 64 MD5 per-round left-rotation amounts. -/
def md5S : List ℕ :=
  [7, 12, 17, 22, 7, 12, 17, 22, 7, 12, 17, 22, 7, 12, 17, 22,
   5, 9, 14, 20, 5, 9, 14, 20, 5, 9, 14, 20, 5, 9, 14, 20,
   4, 11, 16, 23, 4, 11, 16, 23, 4, 11, 16, 23, 4, 11, 16, 23,
   6, 10, 15, 21, 6, 10, 15, 21, 6, 10, 15, 21, 6, 10, 15, 21]

/-- Little-endian byte serialization of `n` into `k` bytes. -/
def toLEBytes : ℕ → ℕ → List ℕ
  | _, 0 => []
  | n, k + 1 => n % 256 :: toLEBytes (n / 256) k

/-- Decode a byte list into little-endian 32-bit words (groups of 4). -/
def bytesToWords : List ℕ → List ℕ
  | b0 :: b1 :: b2 :: b3 :: rest =>
      (b0 + b1 * 256 + b2 * 65536 + b3 * 16777216) :: bytesToWords rest
  | _ => []

/-- MD5 padding: append `0x80`, zero bytes, then the 64-bit LE bit length. -/
def md5Pad (msg : List ℕ) : List ℕ :=
  let n := msg.length
  msg ++ 128 :: List.replicate ((119 - n % 64) % 64) 0
      ++ toLEBytes ((8 * n) % 18446744073709551616) 8

/-- Split a byte list into `fuel` blocks of 64 bytes. -/
def chunk64 : ℕ → List ℕ → List (List ℕ)
  | 0, _ => []
  | n + 1, l => l.take 64 :: chunk64 n (l.drop 64)

/-- One MD5 round `i` on state `(a, b, c, d)` with message words `M`. -/
def md5Round (M : List ℕ) (st : ℕ × ℕ × ℕ × ℕ) (i : ℕ) : ℕ × ℕ × ℕ × ℕ :=
  let a := st.1
  let b := st.2.1
  let c := st.2.2.1
  let d := st.2.2.2
  let f :=
    if i < 16 then (b &&& c) ||| (not32 b &&& d)
    else if i < 32 then (d &&& b) ||| (not32 d &&& c)
    else if i < 48 then b ^^^ c ^^^ d
    else c ^^^ (b ||| not32 d)
  let g :=
    if i < 16 then i
    else if i < 32 then (5 * i + 1) % 16
    else if i < 48 then (3 * i + 5) % 16
    else (7 * i) % 16
  let tmp := (a + f + md5K.getD i 0 + M.getD g 0) % M32
  (d, (b + rotl32 tmp (md5S.getD i 0)) % M32, b, c)

/-- Process one 64-byte block, updating the MD5 state. -/
def md5Block (st : ℕ × ℕ × ℕ × ℕ) (block : List ℕ) : ℕ × ℕ × ℕ × ℕ :=
  let M := bytesToWords block
  let r := (List.range 64).foldl (md5Round M) st
  ((st.1 + r.1) % M32, (st.2.1 + r.2.1) % M32,
   (st.2.2.1 + r.2.2.1) % M32, (st.2.2.2 + r.2.2.2) % M32)

/-- The 16-byte MD5 digest of a byte-list message. -/
def md5Bytes (msg : List ℕ) : List ℕ :=
  let padded := md5Pad msg
  let blocks := chunk64 (padded.length / 64) padded
  let r := blocks.foldl md5Block (0x67452301, 0xefcdab89, 0x98badcfe, 0x10325476)
  toLEBytes r.1 4 ++ toLEBytes r.2.1 4 ++ toLEBytes r.2.2.1 4 ++ toLEBytes r.2.2.2 4

/-- Lowercase hex digit for `n < 16`. -/
def hexDigit (n : ℕ) : Char :=
  if n < 10 then Char.ofNat (48 + n) else Char.ofNat (87 + n)

/-- Two lowercase hex digits of a byte. -/
def byteHex (b : ℕ) : List Char := [hexDigit (b / 16), hexDigit (b % 16)]

/-- UTF-8 bytes of an ASCII string (all strings hashed by av1clip are ASCII). -/
def strBytes (s : String) : List ℕ := s.data.map Char.toNat

/-- The lowercase 32-character hex MD5 digest of a string,
mirroring Python `hashlib.md5(s.encode()).hexdigest()`. -/
def md5Hex (s : String) : String := ⟨((md5Bytes (strBytes s)).map byteHex).flatten⟩

/-! ### Clip requests and the cache fingerprint (`main`, lines 102–118)

`ClipRequest` collects the parsed command-line arguments of one run, after
`argparse` type validation: `width`/`height` hold `check_positive_int`'s
return value, `audio_bitrate` holds `check_opus_bitrate`'s return value. -/

structure ClipRequest where
  input_file : String
  start : Option String
  «end» : Option String
  vid : String
  aid : String
  sid : String
  width : Option ℤ
  height : Option ℤ
  audio_bitrate : String
  crf : ℤ
  preset : ℤ
  tile_rows : ℤ
  tile_columns : ℤ
  film_grain : ℤ
  scd : ℤ
deriving DecidableEq

/-- Python f-string interpolation of an optional int: `None` prints as `"None"`. -/
def pyStrOptInt : Option ℤ → String
  | none => "None"
  | some i => toString i

/-- Python f-string interpolation of an optional string: `None` prints as `"None"`. -/
def pyStrOptStr : Option String → String
  | none => "None"
  | some s => s

/-- The exact string hashed at lines 112–113:
`f"{input_file}.v{vid}a{aid}s{sid}w{width}h{height}ab{audio_bitrate}start{start}end{end}"`. -/
def argstr (r : ClipRequest) : String :=
  r.input_file ++ ".v" ++ r.vid ++ "a" ++ r.aid ++ "s" ++ r.sid ++
    "w" ++ pyStrOptInt r.width ++ "h" ++ pyStrOptInt r.height ++
    "ab" ++ r.audio_bitrate ++ "start" ++ pyStrOptStr r.start ++
    "end" ++ pyStrOptStr r.«end»

/-- `argstr_md5` (line 112): the cache fingerprint of a request. -/
def argstr_md5 (r : ClipRequest) : String := md5Hex (argstr r)

/-- `temp_file_base` (line 114). -/
def temp_file_base (r : ClipRequest) : String := "av1clip-" ++ argstr_md5 r ++ "-"

/-- `temp_file` (line 118): the stable cache path of the intermediate artifact
(`os.path.join` modelled as `/`-concatenation). -/
def temp_file (dest_dir : String) (r : ClipRequest) : String :=
  dest_dir ++ "/" ++ temp_file_base r ++ "temp.mkv"

/-- `temp_file_processing` (line 117): the in-progress name used during extraction. -/
def temp_file_processing (dest_dir : String) (r : ClipRequest) : String :=
  dest_dir ++ "/" ++ temp_file_base r ++ "processing.mkv"

/-! ### Argument validators (lines 52–67) -/

/-- Value of a decimal digit character, `none` for anything else. -/
def digitVal (c : Char) : Option ℕ :=
  if 48 ≤ c.toNat ∧ c.toNat ≤ 57 then some (c.toNat - 48) else none

/-- Value of a nonempty all-digit character list, `none` otherwise. -/
def digitsVal (l : List Char) : Option ℕ :=
  l.foldl (fun acc c => acc.bind (fun n => (digitVal c).map (fun d => n * 10 + d))) (some 0)

/-- Python `int(s)` on an optionally signed decimal literal; `none` models the
`ValueError` raised on any other input. -/
def pyInt? (s : String) : Option ℤ :=
  match s.data with
  | [] => none
  | '-' :: ds => if ds = [] then none else (digitsVal ds).map (fun n => -(n : ℤ))
  | '+' :: ds => if ds = [] then none else (digitsVal ds).map (fun n => (n : ℤ))
  | ds => (digitsVal ds).map (fun n => (n : ℤ))

/-- `check_positive_int` (lines 52–56): parses an int and rejects it only when
`ivalue < 0`; a parse failure (`ValueError`) is also a rejection. `none` models
`argparse.ArgumentTypeError`. Note the guard is `< 0`, so `0` is accepted. -/
def check_positive_int (value : String) : Option ℤ :=
  match pyInt? value with
  | none => none
  | some i => if i < 0 then none else some i

/-- Lines 60–61 on the character list of the string:
`if value.endswith("k"): value = value[:-1] + "000"`. -/
def expandKData (l : List Char) : List Char :=
  if l.getLastD ' ' == 'k' then l.dropLast ++ ['0', '0', '0'] else l

/-- Lines 60–61: `if value.endswith("k"): value = value[:-1] + "000"`. -/
def expandK (s : String) : String := ⟨expandKData s.data⟩

/-- `check_opus_bitrate` (lines 59–67): expands a trailing `k`, parses the
result as an int, rejects values outside `[500, 512000]`, and returns the
(expanded) string. -/
def check_opus_bitrate (value : String) : Option String :=
  let value := expandK value
  match pyInt? value with
  | none => none
  | some i => if i < 500 ∨ i > 512000 then none else some value

/-- A fixed request whose audio-bitrate field holds the validator's return
value, exactly as `argparse` stores `check_opus_bitrate`'s result into
`args.audio_bitrate` before it is hashed. -/
def requestWithBitrate (ab : String) : ClipRequest :=
  { input_file := "a.mkv", start := none, «end» := none,
    vid := "auto", aid := "auto", sid := "auto",
    width := none, height := none, audio_bitrate := ab,
    crf := 30, preset := 3, tile_rows := 2, tile_columns := 2,
    film_grain := 8, scd := 0 }

/-! ### Geometry resolver (`main`, lines 166–196)

Python `float` arithmetic is modelled exactly over `ℚ`; for the dimension
ranges involved the two agree (the float relative error is far below the
half-unit that `round` could amplify). -/

/-- Python `round`: nearest integer, ties to the even integer, on `ℚ`. -/
def pyRound (q : ℚ) : ℤ :=
  let f := ⌊q⌋
  let r := q - f
  if r < 1 / 2 then f
  else if 1 / 2 < r then f + 1
  else if f % 2 = 0 then f else f + 1

/-- Video-stream metadata read from the intermediate artifact by ffprobe
(lines 166–171): pixel dimensions and the `sample_aspect_ratio` rational. -/
structure StreamDescriptor where
  width : ℕ
  height : ℕ
  sample_width : ℕ
  sample_height : ℕ
deriving DecidableEq

/-- `sample_aspect_ratio = sample_width / sample_height` (line 172). -/
def sarOf (d : StreamDescriptor) : ℚ := (d.sample_width : ℚ) / (d.sample_height : ℚ)

/-- The resolved output geometry: final `video_width`/`video_height` and the
`scale` flag that decides whether a scale filter is inserted. -/
structure TargetGeometry where
  width : ℤ
  height : ℤ
  scale : Bool
deriving DecidableEq

/-- Lines 174–183: normalize to square pixels when the sample aspect ratio is
not 1 (the `elif sar > 1` branch is the only alternative once `sar ≠ 1` and
`¬ sar < 1`). Returns `(video_width, video_height, scale)`. -/
def sarNormalize (d : StreamDescriptor) : ℤ × ℤ × Bool :=
  if sarOf d ≠ 1 then
    if sarOf d < 1 then ((d.width : ℤ), pyRound ((d.height : ℚ) / sarOf d), true)
    else (pyRound ((d.width : ℚ) * sarOf d), (d.height : ℤ), true)
  else ((d.width : ℤ), (d.height : ℤ), false)

/-- Python truthiness of an optional int: `None` and `0` are falsy. -/
def pyTruthy : Option ℤ → Bool
  | none => false
  | some i => i != 0

/-- `args.width if args.width else video_width` (lines 187–188). -/
def pyOrElse (u : Option ℤ) (cur : ℤ) : ℚ :=
  if pyTruthy u then ((u.getD 0 : ℤ) : ℚ) else (cur : ℚ)

/-- Lines 184–190: apply the user scale to the (already SAR-normalized)
dimensions `w`, `h` with incoming scale flag `sc`. -/
def userScale (w h : ℤ) (sc : Bool) (uw uh : Option ℤ) : TargetGeometry :=
  if pyTruthy uw || pyTruthy uh then
    let factor : ℚ := min (pyOrElse uw w / (w : ℚ)) (pyOrElse uh h / (h : ℚ))
    ⟨pyRound ((w : ℚ) * factor), pyRound ((h : ℚ) * factor), true⟩
  else ⟨w, h, sc⟩

/-- The whole geometry computation of lines 169–190. -/
def resolveGeometry (d : StreamDescriptor) (uw uh : Option ℤ) : TargetGeometry :=
  let t := sarNormalize d
  userScale t.1 t.2.1 t.2.2 uw uh

/-- Program path constant `FFMPEG` (line 28). -/
def FFMPEG : String := "ffmpeg"

/-- `ffmpeg_yuvpipe_cmd` (lines 193–196): the encode front-end command; the
`-vf scale=...` pair is inserted only when the scale flag is set. -/
def ffmpeg_yuvpipe_cmd (t : String) (g : TargetGeometry) : List String :=
  [FFMPEG, "-hide_banner", "-v", "error", "-i", t, "-map", "0:v:0"]
    ++ (if g.scale then
          ["-vf", "scale=w=" ++ toString g.width ++ ":h=" ++ toString g.height ++
            ":flags=lanczos,setsar=1/1"]
        else [])
    ++ ["-strict", "-1", "-f", "yuv4mpegpipe", "-"]

/-! ### Pipeline control flow (`main`, lines 134–251) -/

/-- Observable events of the extraction phase. -/
inductive ExtractEvent where
  | runMpv
  | renameToStable
  | exitFailure
  | probe
deriving DecidableEq

/-- Lines 134–165: if the stable cache path already exists the whole mpv block
is skipped and control falls through to the ffprobe call (`probe`); otherwise
mpv runs, a non-zero exit triggers `exit(1)` before the rename, and a zero
exit renames the in-progress file to the stable cache name and proceeds. -/
def extractionPhase (cacheHit : Bool) (mpvExit : ℤ) : List ExtractEvent :=
  if cacheHit then [ExtractEvent.probe]
  else if mpvExit ≠ 0 then [ExtractEvent.runMpv, ExtractEvent.exitFailure]
  else [ExtractEvent.runMpv, ExtractEvent.renameToStable, ExtractEvent.probe]

/-- Terminal run outcomes. -/
inductive Outcome where
  | succeeded
  | failed
deriving DecidableEq

/-- Observable events of the encode+mux join. -/
inductive JoinEvent where
  | waitMux
  | waitYuvpipe
  | waitEnc
  | removeTempFile
  | exitFailure
deriving DecidableEq

/-- Line 247: `if not answer or answer[0].lower() != "y"` — the temp file is
deleted unless the answer starts with `y`/`Y`. -/
def deleteTempAnswer (answer : String) : Bool :=
  answer.isEmpty || (answer.data.headD 'x').toLower != 'y'

/-- Lines 226–251: after the three processes are spawned, `mux.communicate()`
waits on the muxer, then `yuvpipe.wait(10)` and `enc.wait(10)` wait on the
front-end and the encoder — unconditionally, before any exit code is
inspected. The run succeeds iff all three return codes are `0`; otherwise it
exits with status 1, never reaching the `os.remove(temp_file)` line. -/
def encodeMuxJoin (yuvpipeExit encExit muxExit : ℤ) (answer : String) :
    List JoinEvent × Outcome :=
  let waits := [JoinEvent.waitMux, JoinEvent.waitYuvpipe, JoinEvent.waitEnc]
  if yuvpipeExit = 0 ∧ encExit = 0 ∧ muxExit = 0 then
    (waits ++ (if deleteTempAnswer answer then [JoinEvent.removeTempFile] else []),
     Outcome.succeeded)
  else (waits ++ [JoinEvent.exitFailure], Outcome.failed)

end AV1Clip

set_option maxRecDepth 4000

namespace AV1Clip

/-- RFC 1321 test vector: the MD5 of the empty string. -/
theorem md5Hex_empty : md5Hex "" = "d41d8cd98f00b204e9800998ecf8427e" := by decide

/-- RFC 1321 test vector: the MD5 of `abc`. -/
theorem md5Hex_abc : md5Hex "abc" = "900150983cd24fb0d6963f7d28e17f72" := by decide

/-- Sanity check: the hash input of a concrete default-like request is the
same string Python builds at lines 112–113. -/
theorem argstr_default_request : argstr (requestWithBitrate "256000")
    = "a.mkv.vautoaautosautowNonehNoneab256000startNoneendNone" := by decide

/-! ### Helper lemmas -/

/-- Appending `"000"` makes the last character `'0'`. -/
theorem getLastD_append_zeros (l : List Char) (d : Char) :
    (l ++ ['0', '0', '0']).getLastD d = '0' := by
  have h : (l ++ ['0', '0', '0']).getLast? = some '0' := by
    rw [List.getLast?_append_of_ne_nil l (by simp)]
    rfl
  simp [h]

/-- The `'k'`-suffix expansion is idempotent: once expanded, the string ends
in `'0'`, so a second expansion changes nothing. -/
theorem expandKData_idem (l : List Char) : expandKData (expandKData l) = expandKData l := by
  by_cases h : l.getLastD ' ' == 'k'
  · simp only [expandKData, h, if_true]
    rw [getLastD_append_zeros]
    simp
  · have h2 : l.getLast?.getD ' ' ≠ 'k' := by simpa using h
    simp [expandKData, h2]

/-- String-level version of `expandKData_idem`. -/
theorem expandK_idem (s : String) : expandK (expandK s) = expandK s := by
  have h : expandK (expandK s) = ⟨expandKData (expandKData s.data)⟩ := rfl
  rw [h, expandKData_idem]
  rfl

/-- Python `round` never rounds a value above an integer upper bound. -/
theorem pyRound_le_of_le (q : ℚ) (n : ℤ) (h : q ≤ (n : ℚ)) : pyRound q ≤ n := by
  have hfn : ⌊q⌋ ≤ n := by
    have h2 := Int.floor_le_floor h
    simpa using h2
  have hfl : (⌊q⌋ : ℚ) ≤ q := Int.floor_le q
  simp only [pyRound]
  split_ifs with h1 h2 h3
  · exact hfn
  · have hq : (⌊q⌋ : ℚ) + 1 / 2 < q := by linarith
    have hlt : (⌊q⌋ : ℚ) < (n : ℚ) := by linarith
    have hzn : ⌊q⌋ < n := by exact_mod_cast hlt
    omega
  · exact hfn
  · have hr : q - ⌊q⌋ = 1 / 2 := le_antisymm (not_lt.mp h2) (not_lt.mp h1)
    have hlt : (⌊q⌋ : ℚ) < (n : ℚ) := by linarith
    have hzn : ⌊q⌋ < n := by exact_mod_cast hlt
    omega

/-! ### Claim theorems -/

/-- C1 (counterexample): two requests identical except for the target width
(one of the fields the claim says only affects the final encode stage) have
DIFFERENT fingerprints, because `argstr_md5` hashes `w{width}h{height}`. -/
theorem argstr_md5_differs_on_width :
    argstr_md5 { (requestWithBitrate "256000") with width := some 960 }
        ≠ argstr_md5 (requestWithBitrate "256000") ∧
    ({ (requestWithBitrate "256000") with width := some 960 } : ClipRequest).crf
        = (requestWithBitrate "256000").crf ∧
    ({ (requestWithBitrate "256000") with width := some 960 } : ClipRequest).preset
        = (requestWithBitrate "256000").preset ∧
    ({ (requestWithBitrate "256000") with width := some 960 } : ClipRequest).input_file
        = (requestWithBitrate "256000").input_file := by
  exact ⟨by decide, rfl, rfl, rfl⟩

/-- C1 (amended): the fingerprint ignores exactly the encoder tuning fields
(crf, preset, tile geometry, film grain, scene-change detection) — requests
differing only in those share the digest and hence the cached intermediate;
width and height, however, are hashed and do affect the digest. -/
theorem argstr_md5_ignores_encode_settings (r : ClipRequest)
    (c p tr tc fg s2 : ℤ) :
    argstr_md5 { r with crf := c, preset := p, tile_rows := tr,
                        tile_columns := tc, film_grain := fg, scd := s2 }
      = argstr_md5 r := rfl

/-- C2: the encode+mux join waits on all three process handles regardless of
exit codes, the outcome is `succeeded` iff all three exit statuses are 0, and
the intermediate artifact is only ever removed on the success path. -/
theorem encodeMuxJoin_outcome (y e m : ℤ) (answer : String) :
    ((encodeMuxJoin y e m answer).2 = Outcome.succeeded ↔ (y = 0 ∧ e = 0 ∧ m = 0)) ∧
    JoinEvent.waitMux ∈ (encodeMuxJoin y e m answer).1 ∧
    JoinEvent.waitYuvpipe ∈ (encodeMuxJoin y e m answer).1 ∧
    JoinEvent.waitEnc ∈ (encodeMuxJoin y e m answer).1 ∧
    (JoinEvent.removeTempFile ∈ (encodeMuxJoin y e m answer).1
      → (encodeMuxJoin y e m answer).2 = Outcome.succeeded) := by
  by_cases hc : y = 0 ∧ e = 0 ∧ m = 0
  · by_cases hd : deleteTempAnswer answer <;> simp [encodeMuxJoin, hc, hd]
  · simp [encodeMuxJoin, hc]

/-- C2 (witness): concrete failed run (encoder exit 1) still has every wait
event, and the outcome classification is exactly the all-zero conjunction. -/
theorem encodeMuxJoin_outcome_witness :
    JoinEvent.waitMux ∈ (encodeMuxJoin 0 1 0 "").1 ∧
    ((encodeMuxJoin 0 1 0 "").2 = Outcome.succeeded
      ↔ ((0:ℤ) = 0 ∧ (1:ℤ) = 0 ∧ (0:ℤ) = 0)) :=
  ⟨(encodeMuxJoin_outcome 0 1 0 "").2.1, (encodeMuxJoin_outcome 0 1 0 "").1⟩

/-- C3: a failed extraction aborts the run before the rename, so no rename
event occurs and nothing ever appears under the stable cache name; in general
a rename event implies the extraction exited 0 on a cache miss. -/
theorem extractionPhase_failure_aborts (rc : ℤ) (hrc : rc ≠ 0) :
    extractionPhase false rc = [ExtractEvent.runMpv, ExtractEvent.exitFailure] ∧
    ExtractEvent.renameToStable ∉ extractionPhase false rc ∧
    (∀ (c : Bool) (e : ℤ), ExtractEvent.renameToStable ∈ extractionPhase c e
      → e = 0 ∧ c = false) := by
  refine ⟨by simp [extractionPhase, hrc], by simp [extractionPhase, hrc], ?_⟩
  intro c e hmem
  cases c
  · by_cases he : e = 0
    · exact ⟨he, rfl⟩
    · simp [extractionPhase, he] at hmem
  · simp [extractionPhase] at hmem

/-- C3 (witness): concrete failing extraction (mpv exit 1). -/
theorem extractionPhase_failure_aborts_witness :
    extractionPhase false 1 = [ExtractEvent.runMpv, ExtractEvent.exitFailure] :=
  (extractionPhase_failure_aborts 1 (by norm_num)).1

/-- C4: with a truthy user width/height, the resolver multiplies both current
dimensions by the single factor `min((uw or w)/w, (uh or h)/h)`, rounds each
axis independently, sets the scale flag, and never exceeds a supplied bound;
concretely 1920x1080 with target width 960 gives 960x540. -/
theorem userScale_bounded (w h : ℤ) (sc : Bool) (uw uh : Option ℤ)
    (hw : 0 < w) (hh : 0 < h)
    (hu : (pyTruthy uw || pyTruthy uh) = true) :
    ((userScale w h sc uw uh).scale = true ∧
      (userScale w h sc uw uh).width
        = pyRound ((w : ℚ) * min (pyOrElse uw w / (w : ℚ)) (pyOrElse uh h / (h : ℚ))) ∧
      (userScale w h sc uw uh).height
        = pyRound ((h : ℚ) * min (pyOrElse uw w / (w : ℚ)) (pyOrElse uh h / (h : ℚ))) ∧
      (∀ n : ℤ, uw = some n → 0 < n → (userScale w h sc uw uh).width ≤ n) ∧
      (∀ n : ℤ, uh = some n → 0 < n → (userScale w h sc uw uh).height ≤ n)) ∧
    resolveGeometry ⟨1920, 1080, 1, 1⟩ (some 960) none = ⟨960, 540, true⟩ := by
  have hus : userScale w h sc uw uh
      = ⟨pyRound ((w : ℚ) * min (pyOrElse uw w / (w : ℚ)) (pyOrElse uh h / (h : ℚ))),
         pyRound ((h : ℚ) * min (pyOrElse uw w / (w : ℚ)) (pyOrElse uh h / (h : ℚ))),
         true⟩ := by
    simp only [userScale, hu, if_true]
  refine ⟨⟨by rw [hus], by rw [hus], by rw [hus], ?_, ?_⟩, ?_⟩
  · intro n hn hpos
    subst hn
    have hwq : (0 : ℚ) < (w : ℚ) := by exact_mod_cast hw
    have hne : n ≠ 0 := by omega
    have hpy : pyOrElse (some n) w = (n : ℚ) := by
      simp [pyOrElse, pyTruthy, hne]
    have hle : (w : ℚ) * min (pyOrElse (some n) w / (w : ℚ)) (pyOrElse uh h / (h : ℚ))
        ≤ (n : ℚ) := by
      calc (w : ℚ) * min (pyOrElse (some n) w / (w : ℚ)) (pyOrElse uh h / (h : ℚ))
          ≤ (w : ℚ) * (pyOrElse (some n) w / (w : ℚ)) :=
            mul_le_mul_of_nonneg_left (min_le_left _ _) (le_of_lt hwq)
        _ = (n : ℚ) := by rw [hpy]; field_simp
    rw [hus]
    exact pyRound_le_of_le _ _ hle
  · intro n hn hpos
    subst hn
    have hhq : (0 : ℚ) < (h : ℚ) := by exact_mod_cast hh
    have hne : n ≠ 0 := by omega
    have hpy : pyOrElse (some n) h = (n : ℚ) := by
      simp [pyOrElse, pyTruthy, hne]
    have hle : (h : ℚ) * min (pyOrElse uw w / (w : ℚ)) (pyOrElse (some n) h / (h : ℚ))
        ≤ (n : ℚ) := by
      calc (h : ℚ) * min (pyOrElse uw w / (w : ℚ)) (pyOrElse (some n) h / (h : ℚ))
          ≤ (h : ℚ) * (pyOrElse (some n) h / (h : ℚ)) :=
            mul_le_mul_of_nonneg_left (min_le_right _ _) (le_of_lt hhq)
        _ = (n : ℚ) := by rw [hpy]; field_simp
    rw [hus]
    exact pyRound_le_of_le _ _ hle
  · simp only [resolveGeometry, sarNormalize, userScale, sarOf, pyTruthy, pyOrElse, pyRound]
    norm_num

/-- C4 (witness): the concrete 1920x1080, width-960 case. -/
theorem userScale_bounded_witness :
    (userScale 1920 1080 false (some 960) none).width ≤ 960 ∧
    resolveGeometry ⟨1920, 1080, 1, 1⟩ (some 960) none = ⟨960, 540, true⟩ :=
  ⟨(userScale_bounded 1920 1080 false (some 960) none (by norm_num) (by norm_num)
      (by decide)).1.2.2.2.1 960 rfl (by norm_num),
   (userScale_bounded 1920 1080 false (some 960) none (by norm_num) (by norm_num)
      (by decide)).2⟩

/-- C5: for a non-1:1 sample aspect ratio the resolver sets the scale flag and
normalizes to square pixels before user scaling: ratio < 1 rescales only the
height to `round(height / ratio)`, ratio > 1 rescales only the width to
`round(width * ratio)`; concretely SAR 2:1 on 640x480 gives 1280x480. -/
theorem sarNormalize_nonsquare (d : StreamDescriptor)
    (_hsw : 0 < d.sample_width) (_hsh : 0 < d.sample_height)
    (hne : sarOf d ≠ 1) :
    ((sarNormalize d).2.2 = true ∧
      (sarOf d < 1 → sarNormalize d
          = ((d.width : ℤ), pyRound ((d.height : ℚ) / sarOf d), true)) ∧
      (1 < sarOf d → sarNormalize d
          = (pyRound ((d.width : ℚ) * sarOf d), (d.height : ℤ), true))) ∧
    sarNormalize ⟨640, 480, 2, 1⟩ = (1280, 480, true) := by
  refine ⟨⟨?_, ?_, ?_⟩, ?_⟩
  · simp only [sarNormalize, if_pos hne]
    split_ifs <;> rfl
  · intro hlt
    simp only [sarNormalize, if_pos hne, if_pos hlt]
  · intro hgt
    simp only [sarNormalize, if_pos hne, if_neg (not_lt.mpr (le_of_lt hgt))]
  · simp only [sarNormalize, sarOf, pyRound]
    norm_num

/-- C5 (witness): the concrete SAR 2:1, 640x480 case. -/
theorem sarNormalize_nonsquare_witness :
    sarNormalize ⟨640, 480, 2, 1⟩ = (1280, 480, true) :=
  (sarNormalize_nonsquare ⟨640, 480, 2, 1⟩ (by norm_num) (by norm_num)
    (by norm_num [sarOf])).2

/-- C6: on a cache hit the extraction phase consists of the probe alone — the
mpv extraction command is never run and control proceeds directly to probing,
for every possible would-be mpv exit code. -/
theorem extractionPhase_cacheHit_skips (rc : ℤ) :
    extractionPhase true rc = [ExtractEvent.probe] ∧
    ExtractEvent.runMpv ∉ extractionPhase true rc := by
  refine ⟨rfl, by simp [extractionPhase]⟩

/-- C7 (counterexample): the hash input concatenates fields with no
unambiguous separators, so two requests differing in their video and audio
track selectors (`vid="1a2", aid="3"` versus `vid="1", aid="2a3"`) produce
the SAME fingerprint. -/
theorem argstr_md5_collides_on_tracks :
    argstr_md5 { (requestWithBitrate "256000") with vid := "1a2", aid := "3" }
      = argstr_md5 { (requestWithBitrate "256000") with vid := "1", aid := "2a3" } ∧
    ("1a2" : String) ≠ "1" ∧ ("3" : String) ≠ "2a3" := by
  exact ⟨by decide, by decide, by decide⟩

/-- C7 (amended): the fingerprint is a pure deterministic function of the
cache-relevant fields — equal fields give equal digests — but it is not
injective on them (see the track-selector collision). -/
theorem argstr_md5_deterministic (r1 r2 : ClipRequest)
    (h1 : r1.input_file = r2.input_file) (h2 : r1.vid = r2.vid)
    (h3 : r1.aid = r2.aid) (h4 : r1.sid = r2.sid)
    (h5 : r1.width = r2.width) (h6 : r1.height = r2.height)
    (h7 : r1.audio_bitrate = r2.audio_bitrate)
    (h8 : r1.start = r2.start) (h9 : r1.«end» = r2.«end») :
    argstr_md5 r1 = argstr_md5 r2 := by
  unfold argstr_md5 argstr
  rw [h1, h2, h3, h4, h5, h6, h7, h8, h9]

/-- C7 (witness): two requests agreeing on the cache-relevant fields but with
different crf values share their digest. -/
theorem argstr_md5_deterministic_witness :
    argstr_md5 { (requestWithBitrate "256000") with crf := 0 }
      = argstr_md5 { (requestWithBitrate "256000") with crf := 63 } :=
  argstr_md5_deterministic _ _ rfl rfl rfl rfl rfl rfl rfl rfl rfl

/-- C8: with an exactly 1:1 sample aspect ratio and no user override the
resolver passes the dimensions through unchanged with the scale flag false,
and the encode front-end command contains no scale filter. -/
theorem resolveGeometry_square_noscale (d : StreamDescriptor) (t : String)
    (hsh : 0 < d.sample_height) (heq : d.sample_width = d.sample_height) :
    resolveGeometry d none none = ⟨(d.width : ℤ), (d.height : ℤ), false⟩ ∧
    ffmpeg_yuvpipe_cmd t (resolveGeometry d none none)
      = [FFMPEG, "-hide_banner", "-v", "error", "-i", t, "-map", "0:v:0",
         "-strict", "-1", "-f", "yuv4mpegpipe", "-"] := by
  have hz : (d.sample_height : ℚ) ≠ 0 := Nat.cast_ne_zero.mpr (by omega)
  have hsar : sarOf d = 1 := by
    simp only [sarOf, heq]
    exact div_self hz
  have hres : resolveGeometry d none none = ⟨(d.width : ℤ), (d.height : ℤ), false⟩ := by
    simp [resolveGeometry, sarNormalize, hsar, userScale, pyTruthy]
  refine ⟨hres, ?_⟩
  rw [hres]
  simp [ffmpeg_yuvpipe_cmd]

/-- C8 (witness): the concrete square-pixel 1920x1080 case. -/
theorem resolveGeometry_square_noscale_witness :
    resolveGeometry ⟨1920, 1080, 1, 1⟩ none none = ⟨1920, 1080, false⟩ :=
  (resolveGeometry_square_noscale ⟨1920, 1080, 1, 1⟩ "t" (by norm_num) rfl).1

/-- C9 (code evaluation at the failing input): `check_positive_int` ACCEPTS
the string `"0"` — its guard is `ivalue < 0` although its own error message
demands a positive integer, so the non-positive value 0 is not rejected. -/
theorem check_positive_int_accepts_zero : check_positive_int "0" = some 0 := by
  decide

/-- C10 (counterexample): the audio-bitrate validator returns the k-EXPANDED
string, not the original spelling, so `"256k"` and `"256000"` validate to the
same value and the fingerprints of the resulting requests coincide. -/
theorem check_opus_bitrate_spelling_collision :
    check_opus_bitrate "256k" = some "256000" ∧
    check_opus_bitrate "256k" ≠ some "256k" ∧
    ((check_opus_bitrate "256k").map fun ab => argstr_md5 (requestWithBitrate ab))
      = ((check_opus_bitrate "256000").map fun ab => argstr_md5 (requestWithBitrate ab)) := by
  exact ⟨by decide, by decide, by decide⟩

/-- C10 (amended): the validator range-checks the k-expanded integer and
returns the expanded string; a bitrate and its k-spelling therefore validate
identically, and requests built from them are hashed to the same fingerprint,
sharing the cached intermediate artifact. -/
theorem check_opus_bitrate_expanded_spelling (raw : String) (r : ClipRequest) :
    check_opus_bitrate (expandK raw) = check_opus_bitrate raw ∧
    ((check_opus_bitrate raw).map fun ab => argstr_md5 { r with audio_bitrate := ab })
      = ((check_opus_bitrate (expandK raw)).map
          fun ab => argstr_md5 { r with audio_bitrate := ab }) := by
  have he : check_opus_bitrate (expandK raw) = check_opus_bitrate raw := by
    unfold check_opus_bitrate
    rw [expandK_idem]
  exact ⟨he, by rw [he]⟩

end AV1Clip
